import Mathlib

/-!
Verification of the `discourse` terminal-prompt engine against its
natural-language specification.

The development shallowly embeds the relevant parts of the source:

* `discourse-ui/src/input.rs` — the runner (`Input`): scrollback arithmetic
  (`adjust_scrollback`, `goto_last_line`, `print_error`), the terminal-state
  guard (`TerminalState`), and the event loop (`Input::run`).
* `src/question/raw_select/mod.rs` and `src/question/rawlist.rs` — the
  typed-index updates of the raw-select prompts.
* `src/question/number.rs` — the integer prompt's key-delta arithmetic.

Machine integers are embedded as `Nat` / `Int`.  `u16` arithmetic is embedded
checked (as compiled with overflow checks): an operation that would overflow
or underflow yields `none`, standing for the arithmetic panic.  `i64`
`wrapping_add` is embedded as addition followed by reduction into
`[-2^63, 2^63)`.
-/

namespace Discourse

/-- `u16::MAX`. -/
def u16Max : Nat := 65535

/-- Checked `u16` subtraction: `a - b`, `none` on underflow (panic). -/
def checkedSub (a b : Nat) : Option Nat :=
  if b ≤ a then some (a - b) else none

/-- Checked `u16` addition: `a + b`, `none` on overflow (panic). -/
def checkedAdd (a b : Nat) : Option Nat :=
  if a + b ≤ u16Max then some (a + b) else none

/-- Observable backend operations issued by the runner's row bookkeeping
(`Backend::scroll`, `Backend::move_cursor`, `Backend::move_cursor_to`,
styled writes, error-widget render and flush). -/
inductive Op
  | scrollUp (n : Nat)
  | cursorUp (n : Nat)
  | moveTo (col row : Nat)
  | writeGlyph
  | renderError
  | flushOp
  deriving DecidableEq, Repr

namespace Input

/-- `Input::adjust_scrollback` (input.rs:66-79).

```
let th = self.size.height;
let mut base_row = self.base_row;
if self.base_row >= th - height {
    let dist = self.base_row + height - th + 1;
    base_row -= dist;
    self.backend.scroll(-(dist as i16))?;
    self.backend.move_cursor(MoveDirection::Up(dist))?;
}
Ok(base_row)
```

Returns the new `base_row` together with the backend operations issued.
All `u16` arithmetic is checked: `none` models the arithmetic panic. -/
def adjust_scrollback (th base_row height : Nat) : Option (Nat × List Op) :=
  (checkedSub th height).bind fun g =>
    if base_row ≥ g then
      (checkedAdd base_row height).bind fun s =>
        (checkedSub s th).bind fun d0 =>
          (checkedAdd d0 1).bind fun dist =>
            (checkedSub base_row dist).map fun nb =>
              (nb, [Op.scrollUp dist, Op.cursorUp dist])
    else some (base_row, [])

/-- `Input::goto_last_line` (input.rs:105-108): adjust scrollback for
`height`, store the result in `base_row`, move the cursor to
`(0, base_row + height)`. -/
def goto_last_line (th base_row height : Nat) : Option (Nat × List Op) :=
  (adjust_scrollback th base_row height).bind fun p =>
    (checkedAdd p.1 height).map fun row => (p.1, p.2 ++ [Op.moveTo 0 row])

/-- `Input::print_error` (input.rs:110-127): go to the line after the
prompt's block, write the failure glyph, re-run the scrollback adjustment
with `height + error_height.saturating_sub(1)` (its returned row is
discarded by the source — only the physical scroll happens), render the
error and flush.  `h` is the prompt's full height, `eh` the error widget's
height. -/
def print_error (th base_row h eh : Nat) : Option (Nat × List Op) :=
  (goto_last_line th base_row h).bind fun p1 =>
    (adjust_scrollback th p1.1 (h + (eh - 1))).map fun p2 =>
      (p1.1, p1.2 ++ [Op.writeGlyph] ++ p2.2 ++ [Op.renderError, Op.flushOp])

end Input

/-- Backend calls issued by the terminal-state guard (`TerminalState`). -/
inductive GuardCall
  | showCursor
  | hideCursor
  | enableRawMode
  | disableRawMode
  deriving DecidableEq, Repr

/-- `TerminalState` (input.rs:218-222): the terminal-state guard's flags. -/
structure TerminalState where
  enabled : Bool
  hide_cursor : Bool
  deriving DecidableEq, Repr

namespace TerminalState

/-- `TerminalState::init` (input.rs:233-239): mark enabled, optionally hide
the cursor, enable raw mode.  Returns the new state and the backend calls
issued. -/
def init (s : TerminalState) : TerminalState × List GuardCall :=
  ({ s with enabled := true },
    (if s.hide_cursor then [GuardCall.hideCursor] else []) ++ [GuardCall.enableRawMode])

/-- `TerminalState::reset` (input.rs:241-247): mark not-enabled, optionally
show the cursor, disable raw mode.  Note the source issues the backend calls
unconditionally — there is no `enabled` check here. -/
def reset (s : TerminalState) : TerminalState × List GuardCall :=
  ({ s with enabled := false },
    (if s.hide_cursor then [GuardCall.showCursor] else []) ++ [GuardCall.disableRawMode])

/-- `impl Drop for TerminalState` (input.rs:250-256): run `reset` only if
the guard is still enabled. -/
def drop (s : TerminalState) : TerminalState × List GuardCall :=
  if s.enabled then s.reset else (s, [])

end TerminalState

/-- `KeyCode` (events): the key codes the runner and the prompts inspect. -/
inductive KeyCode
  | Char (c : Char)
  | Enter
  | Esc
  | Null
  | Up
  | Down
  | PageUp
  | PageDown
  | OtherKey
  deriving DecidableEq, Repr

/-- `KeyEvent`: a logical key code plus the CONTROL-modifier flag (the only
modifier the runner inspects). -/
structure KeyEvent where
  code : KeyCode
  ctrl : Bool
  deriving DecidableEq, Repr

/-- `Validation` (discourse-ui): the successful results of
`Prompt::validate`. -/
inductive Validation
  | Finish
  | Continue
  deriving DecidableEq, Repr

/-- `Result<Validation, Self::ValidateErr>`. -/
inductive VResult (ε : Type)
  | ok (v : Validation)
  | err (e : ε)
  deriving DecidableEq, Repr

/-- The `Prompt` trait (input.rs:16-43) as a record of the operations the
runner calls.  `validate` and `handle_key` thread the prompt state
(`&mut self`). -/
structure PromptModel (σ ε ο : Type) where
  validate : σ → σ × VResult ε
  handle_key : σ → KeyEvent → σ × Bool
  has_default : σ → Bool
  finish : σ → ο
  finish_default : σ → ο

/-- Observable actions of the `Input::run` loop: a full re-render, an error
render (`print_error` — its row arithmetic is embedded above),
`goto_last_line` + guard `reset` for `exit`, `clear` + guard `reset` for
`finish`, and a marker recording that `Prompt::validate` was invoked. -/
inductive Action
  | renderAct
  | printErrorAct
  | gotoLastLineAct
  | clearAct
  | resetAct
  | validateCalled
  deriving DecidableEq, Repr

/-- The outcomes of `Input::run`: `Ok(output)`, `Err(Interrupted)`,
`Err(Eof)`, a propagated event-pull failure, or the
`events.next().unwrap()` panic on an exhausted iterator. -/
inductive Outcome (ο ι : Type)
  | finished (o : ο)
  | interrupted
  | eof
  | pullFailed (e : ι)
  | panicked
  deriving DecidableEq, Repr

namespace Input

variable {σ ε ο ι : Type}

/-- `Input::run` (input.rs:151-193) over a finite event list:

```
loop {
    let e = events.next().unwrap()?;
    let key_handled = match e.code {
        KeyCode::Char('c') if e.modifiers.contains(KeyModifiers::CONTROL) =>
            { self.exit()?; return Err(ErrorKind::Interrupted); }
        KeyCode::Null => { self.exit()?; return Err(ErrorKind::Eof); }
        KeyCode::Esc if self.prompt.has_default() => return self.finish(false),
        KeyCode::Enter => match self.prompt.validate() {
            Ok(Validation::Finish) => return self.finish(true),
            Ok(Validation::Continue) => true,
            Err(e) => { self.print_error(e)?; continue; }
        },
        _ => self.prompt.handle_key(e),
    };
    if key_handled { self.render()?; }
}
```

An exhausted iterator makes `unwrap` panic (`Outcome.panicked`); a failing
pull propagates through `?` (`Outcome.pullFailed`).  Returns the outcome
and the trace of loop actions. -/
def run (P : PromptModel σ ε ο) :
    σ → List (Except ι KeyEvent) → Outcome ο ι × List Action
  | _, [] => (Outcome.panicked, [])
  | _, Except.error e :: _ => (Outcome.pullFailed e, [])
  | s, Except.ok e :: rest =>
    if e.code = KeyCode.Char 'c' ∧ e.ctrl = true then
      (Outcome.interrupted, [Action.gotoLastLineAct, Action.resetAct])
    else if e.code = KeyCode.Null then
      (Outcome.eof, [Action.gotoLastLineAct, Action.resetAct])
    else if e.code = KeyCode.Esc ∧ P.has_default s = true then
      (Outcome.finished (P.finish_default s), [Action.clearAct, Action.resetAct])
    else if e.code = KeyCode.Enter then
      match P.validate s with
      | (s', VResult.ok Validation.Finish) =>
        (Outcome.finished (P.finish s'),
          [Action.validateCalled, Action.clearAct, Action.resetAct])
      | (s', VResult.ok Validation.Continue) =>
        let r := run P s' rest
        (r.1, Action.validateCalled :: Action.renderAct :: r.2)
      | (s', VResult.err _) =>
        let r := run P s' rest
        (r.1, Action.validateCalled :: Action.printErrorAct :: r.2)
    else
      let hk := P.handle_key s e
      let r := run P hk.1 rest
      (r.1, (if hk.2 then [Action.renderAct] else []) ++ r.2)

end Input

/-- A concrete prompt whose `validate` always reports `Finish`, with no
default value; used to evaluate the runner model on concrete inputs. -/
def unitPrompt : PromptModel Unit String Unit where
  validate _ := ((), VResult.ok Validation.Finish)
  handle_key _ _ := ((), false)
  has_default _ := false
  finish _ := ()
  finish_default _ := ()

/-- A concrete prompt whose `validate` always fails. -/
def failPrompt : PromptModel Unit String Unit where
  validate _ := ((), VResult.err "invalid")
  handle_key _ _ := ((), false)
  has_default _ := false
  finish _ := ()
  finish_default _ := ()

/-- A concrete prompt that declares a default value; `finish` and
`finish_default` are distinguishable. -/
def defaultPrompt : PromptModel Unit String Nat where
  validate _ := ((), VResult.ok Validation.Finish)
  handle_key _ _ := ((), false)
  has_default _ := true
  finish _ := 1
  finish_default _ := 2

/-- `Choice<T>` (question/choice.rs): a selectable item or a non-selectable
separator.  The older `rawlist.rs` uses `Separator(Option<String>)`; its
`Some`/`None` payloads are covered by `Separator`/`DefaultSeparator`. -/
inductive Choice (α : Type)
  | Choice (a : α)
  | Separator (text : String)
  | DefaultSeparator
  deriving DecidableEq, Repr

/-- `Choice::is_separator`. -/
def Choice.is_separator {α : Type} : Discourse.Choice α → Bool
  | Discourse.Choice.Choice _ => false
  | _ => true

/-- `is_selectable(index)` of the raw-select prompts:
`!choices[index].is_separator()`; out-of-range indices are not
selectable. -/
def selectableAt {α : Type} (choices : List (Choice α)) (i : Nat) : Bool :=
  match choices.get? i with
  | some c => ! c.is_separator
  | none => false

/-- `Iterator::position`: index of the first element satisfying `p`. -/
def position {α : Type} (p : α → Bool) : List α → Option Nat
  | [] => none
  | x :: xs => if p x then some 0 else (position p xs).map (· + 1)

/-- The typed-index update of `RawSelectPrompt::handle_key`
(raw_select/mod.rs:85-99): after the digit-filtered input widget accepted a
key, its value is parsed (`parsed`; `none` models a failed `usize` parse).
If `n ≤ len && n > 0` and a choice numbered `n` is found at or after
position `n - 1`, hover it (`set_at(pos + n - 1)`); every other path runs
`set_at(len + 1)`. -/
def rawSelectTypedUpdate (choices : List (Choice (Nat × String)))
    (parsed : Option Nat) : Nat :=
  match parsed with
  | some n =>
    if n ≤ choices.length ∧ n > 0 then
      match position (fun c => match c with
          | Choice.Choice (i, _) => i == n
          | _ => false) (choices.drop (n - 1)) with
      | some pos => pos + n - 1
      | none => choices.length + 1
    else choices.length + 1
  | none => choices.length + 1

/-- The typed-index update of `RawlistPrompt::handle_key`
(rawlist.rs:93-111): same shape with zero-indexed choice numbers —
`n < len && n > 0`, then `n -= 1` and a search for the choice numbered `n`
from position `n`; every other path runs `set_at(len + 1)`. -/
def rawlistTypedUpdate (choices : List (Choice (Nat × String)))
    (parsed : Option Nat) : Nat :=
  match parsed with
  | some n =>
    if n < choices.length ∧ n > 0 then
      match position (fun c => match c with
          | Choice.Choice (i, _) => i == n - 1
          | _ => false) (choices.drop (n - 1)) with
      | some pos => pos + (n - 1)
      | none => choices.length + 1
    else choices.length + 1
  | none => choices.length + 1

/-- `RawSelectPrompt::validate` (raw_select/mod.rs:51-57): an out-of-range
hover (`get_at() >= len`) is rejected. -/
def rawSelectValidate (a len : Nat) : VResult String :=
  if a ≥ len then VResult.err "Please enter a valid choice"
  else VResult.ok Validation.Finish

/-- Modelled from the spec: forward search for a selectable index in
`[start, len)`.  The paginated-list engine (`widgets::Select`,
`discourse-ui/src/select.rs`) is not part of the source tree; §4.6 of the
spec describes its navigation. -/
def findSelectableFwd (sel : Nat → Bool) (len start : Nat) : Option Nat :=
  ((List.range len).drop start).find? sel

/-- Modelled from the spec: backward search for a selectable index in
`[0, stop)`, nearest to `stop` first. -/
def findSelectableBwd (sel : Nat → Bool) (stop : Nat) : Option Nat :=
  (List.range stop).reverse.find? sel

/-- Modelled from the spec: §4.6 "Up/Down: move to the previous/next
selectable index; if wraparound is enabled, wrap past the ends skipping
non-selectable items; if disabled, clamp and treat the key as unhandled at
the boundary".  `none` means the key is left unhandled (hover unchanged). -/
def nextSelectable (len : Nat) (sel : Nat → Bool) (shouldLoop : Bool)
    (cur : Nat) : Option Nat :=
  match findSelectableFwd sel len (cur + 1) with
  | some j => some j
  | none => if shouldLoop then findSelectableFwd sel len 0 else none

/-- Modelled from the spec: the Up-key counterpart of `nextSelectable`. -/
def prevSelectable (len : Nat) (sel : Nat → Bool) (shouldLoop : Bool)
    (cur : Nat) : Option Nat :=
  match findSelectableBwd sel cur with
  | some j => some j
  | none => if shouldLoop then findSelectableBwd sel len else none

/-- Two's-complement wrap of an integer into `[-2^63, 2^63)`. -/
def wrap64 (x : Int) : Int := (x + 2 ^ 63) % 2 ^ 64 - 2 ^ 63

/-- `i64::wrapping_add`: addition modulo `2^64` on the two's-complement
representation. -/
def wrappingAdd64 (a b : Int) : Int := wrap64 (a + b)

/-- `Int::delta` (number.rs:36-38): `i.wrapping_add(delta)`. -/
def intDelta (i d : Int) : Int := wrappingAdd64 i d

/-- The arrow/page-key arm of `IntPrompt::handle_key` (number.rs:110-116):
maps the key code and the parse result of the input value to the value
written back; `none` models the fall-through (`return false`). -/
def intHandleKeyValue : KeyCode → Option Int → Option Int
  | KeyCode.PageUp, some n => some (intDelta n 10)
  | KeyCode.PageDown, some n => some (intDelta n (-10))
  | KeyCode.Up, some n => some (intDelta n 1)
  | KeyCode.Down, some n => some (intDelta n (-1))
  | _, _ => none

end Discourse

open Discourse

/-- Helper: in the in-range regime (`height < terminal_height`,
`base_row + height ≤ u16::MAX`), an overflowing content block makes the
adjustment scroll by `base_row + height - th + 1`. -/
theorem adjust_scrollback_eq_of_lt (th br h : Nat) (hgt : br + h > th)
    (hlt : h < th) (hfit : br + h ≤ u16Max) :
    Input.adjust_scrollback th br h =
      some (br - (br + h - th + 1),
        [Op.scrollUp (br + h - th + 1), Op.cursorUp (br + h - th + 1)]) := by
  have h1 : h ≤ th := Nat.le_of_lt hlt
  have hguard : th - h ≤ br := by omega
  have h2 : th ≤ br + h := by omega
  have h3 : br + h - th + 1 ≤ u16Max := by
    unfold u16Max at hfit ⊢; omega
  have h4 : br + h - th + 1 ≤ br := by omega
  simp [Input.adjust_scrollback, checkedSub, checkedAdd, h1, hguard, hfit,
    h2, h3, h4]

/-- C1: the claim quantifies over every `base_row`/`height`/`terminal_height`
with `base_row + height` exceeding the terminal height.  At
`terminal_height = 5`, `base_row = 0`, `height = 6` the content exceeds the
screen, yet the adjustment does not scroll by `0+6-5+1`: the guard's
`th - height` underflows and the code panics (modelled as `none`). -/
theorem c1_scrollback_formula_counterexample :
    0 + 6 > 5 ∧ Input.adjust_scrollback 5 0 6 = none := by
  constructor
  · decide
  · rfl

/-- C1 (amended): whenever `base_row + height` exceeds the terminal height,
**provided** `height < terminal_height` and `base_row + height` fits in
`u16`, the adjustment computes `dist = base_row + height - th + 1`, scrolls
up by `dist`, moves the cursor up by `dist`, and subtracts `dist` from
`base_row`; in particular at `th = 10`, `base_row = 8`, `height = 5` it
scrolls by `4` and yields `base_row = 4`. -/
theorem c1_scrollback_formula :
    (∀ th br h : Nat, br + h > th → h < th → br + h ≤ u16Max →
      Input.adjust_scrollback th br h =
        some (br - (br + h - th + 1),
          [Op.scrollUp (br + h - th + 1), Op.cursorUp (br + h - th + 1)])) ∧
    Input.adjust_scrollback 10 8 5 = some (4, [Op.scrollUp 4, Op.cursorUp 4]) := by
  constructor
  · exact adjust_scrollback_eq_of_lt
  · rfl

/-- C1 witness: the amended theorem applied at the spec's own scenario. -/
theorem c1_scrollback_formula_witness :
    Input.adjust_scrollback 10 8 5 =
      some (8 - (8 + 5 - 10 + 1), [Op.scrollUp (8 + 5 - 10 + 1), Op.cursorUp (8 + 5 - 10 + 1)]) :=
  c1_scrollback_formula.1 10 8 5 (by decide) (by decide) (by decide)

/-- C2: the scrollback bound is claimed for **all** `base_row`, `height`,
`terminal_height` with `base_row + height > terminal_height`.  At
`base_row = 2`, `height = 7`, `terminal_height = 7` the adjustment's
`base_row - dist` underflows (modelled as `none`): the arithmetic does not
"never underflow" and no valid `new_base_row` is produced. -/
theorem c2_scrollback_bound_counterexample :
    2 + 7 > 7 ∧ Input.adjust_scrollback 7 2 7 = none := by
  constructor
  · decide
  · rfl

/-- C2 (amended): for all `base_row`, `height`, `terminal_height` with
`base_row + height > terminal_height`, **provided** `height <
terminal_height` and `base_row + height` fits in `u16`, the adjustment
succeeds without any arithmetic underflow and yields `new_base_row` with
`new_base_row + height ≤ terminal_height` (nonnegativity is inherent in the
`Nat` embedding). -/
theorem c2_scrollback_bound :
    ∀ th br h : Nat, br + h > th → h < th → br + h ≤ u16Max →
      ∃ nb ops, Input.adjust_scrollback th br h = some (nb, ops) ∧
        nb + h ≤ th := by
  intro th br h hgt hlt hfit
  refine ⟨br - (br + h - th + 1), _,
    adjust_scrollback_eq_of_lt th br h hgt hlt hfit, ?_⟩
  omega

/-- C2 witness: the amended bound applied at `th = 10`, `base_row = 8`,
`height = 5`. -/
theorem c2_scrollback_bound_witness :
    ∃ nb ops, Input.adjust_scrollback 10 8 5 = some (nb, ops) ∧ nb + 5 ≤ 10 :=
  c2_scrollback_bound 10 8 5 (by decide) (by decide) (by decide)

/-- Helper: when the content fits (`base_row + height < terminal_height`),
the adjustment leaves `base_row` unchanged and issues no backend calls. -/
theorem adjust_scrollback_of_fits (th br h : Nat) (hfits : br + h < th) :
    Input.adjust_scrollback th br h = some (br, []) := by
  have h1 : h ≤ th := by omega
  have hguard : ¬ th - h ≤ br := by omega
  simp [Input.adjust_scrollback, checkedSub, checkedAdd, h1, hguard]

/-- Helper: relaxation of `adjust_scrollback_eq_of_lt` to `br + h ≥ th`
(the source guard also fires when the content exactly reaches the last
visible row). -/
theorem adjust_scrollback_eq_of_le (th br h : Nat) (hge : br + h ≥ th)
    (hlt : h < th) (hfit : br + h ≤ u16Max) :
    Input.adjust_scrollback th br h =
      some (br - (br + h - th + 1),
        [Op.scrollUp (br + h - th + 1), Op.cursorUp (br + h - th + 1)]) := by
  have h1 : h ≤ th := Nat.le_of_lt hlt
  have hguard : th - h ≤ br := by omega
  have h2 : th ≤ br + h := by omega
  have h3 : br + h - th + 1 ≤ u16Max := by
    unfold u16Max at hfit ⊢; omega
  have h4 : br + h - th + 1 ≤ br := by omega
  simp [Input.adjust_scrollback, checkedSub, checkedAdd, h1, hguard, hfit,
    h2, h3, h4]

/-- C3: the claim states that calling release (`TerminalState::reset`) when
the guard is not enabled is a no-op.  It is not: `reset` issues
`disable_raw_mode` unconditionally, so on a not-enabled guard it still
issues a backend call, and two consecutive `reset` calls on an enabled
guard issue `disable_raw_mode` twice (a double toggle). -/
theorem c3_release_idempotent_counterexample :
    ((TerminalState.mk false false).reset).2 = [GuardCall.disableRawMode] ∧
    ((TerminalState.mk false false).reset).2 ≠ [] ∧
    (((TerminalState.mk true false).reset).2 ++
        (((TerminalState.mk true false).reset).1.reset).2).count
      GuardCall.disableRawMode = 2 := by
  decide

/-- C3 (amended): `reset` itself is unguarded — it always issues the
backend calls and marks the guard not-enabled.  The idempotence belongs to
the destructor path: `Drop` runs `reset` only when the guard is still
enabled, so dropping a guard that is not enabled is a no-op, and a release
followed by the destructor's release issues `disable_raw_mode` exactly once
and `show_cursor` exactly once when cursor hiding was requested (no double
toggle on the second, guarded call). -/
theorem c3_release_idempotent (s : TerminalState) :
    (s.enabled = false → s.drop = (s, [])) ∧
    ((s.reset).1.drop = ((s.reset).1, [])) ∧
    ((s.reset).2 ++ ((s.reset).1.drop).2).count GuardCall.disableRawMode = 1 ∧
    ((s.reset).2 ++ ((s.reset).1.drop).2).count GuardCall.showCursor =
      (if s.hide_cursor then 1 else 0) := by
  obtain ⟨e, hc⟩ := s
  cases e <;> cases hc <;> decide

/-- C3 witness: the amended statement at an enabled, cursor-hiding guard. -/
theorem c3_release_idempotent_witness :
    ((TerminalState.mk true true).reset).1.drop = (((TerminalState.mk true true).reset).1, []) :=
  (c3_release_idempotent (TerminalState.mk true true)).2.1

/-- C8: on a validation failure `print_error` moves to the line immediately
after the prompt's block (`(0, base_row + height)` after adjusting for the
prompt height), writes the failure glyph, re-runs the scrollback adjustment
with the combined height `height + (error_height - 1)` (content of
`height + error_height` rows in the adjustment's convention), renders the
single-line error and flushes; the resulting `base_row` satisfies
`base_row + height + error_height ≤ terminal_height`.  Stated for a
one-line error (`eh = 1`, the `Prompt::ValidateErr` contract) in the
in-range regime. -/
theorem c8_print_error_behaviour (th br h : Nat) (_hpos : 0 < h)
    (hlt : h < th) (hth : th ≤ u16Max) (hfit : br + h ≤ u16Max) :
    ∃ b1 scrolls,
      Input.print_error th br h 1 =
        some (b1, scrolls ++ [Op.moveTo 0 (b1 + h), Op.writeGlyph,
          Op.renderError, Op.flushOp]) ∧
      b1 + h + 1 ≤ th ∧
      (scrolls = [] ∨ ∃ d, scrolls = [Op.scrollUp d, Op.cursorUp d]) := by
  by_cases hc : br + h < th
  · refine ⟨br, [], ?_, by omega, Or.inl rfl⟩
    have hrow : br + h ≤ u16Max := hfit
    simp [Input.print_error, Input.goto_last_line,
      adjust_scrollback_of_fits th br h hc, checkedAdd, hrow]
  · have hge : br + h ≥ th := by omega
    have hb1 : br - (br + h - th + 1) = th - h - 1 := by omega
    refine ⟨th - h - 1,
      [Op.scrollUp (br + h - th + 1), Op.cursorUp (br + h - th + 1)], ?_,
      by omega, Or.inr ⟨br + h - th + 1, rfl⟩⟩
    have hadj := adjust_scrollback_eq_of_le th br h hge hlt hfit
    rw [hb1] at hadj
    have hrow : th - h - 1 + h ≤ u16Max := by
      unfold u16Max at hth ⊢; omega
    have hfits2 : th - h - 1 + h < th := by omega
    simp [Input.print_error, Input.goto_last_line, hadj, checkedAdd, hrow,
      adjust_scrollback_of_fits th (th - h - 1) h hfits2]

/-- C8 witness: `print_error` at `th = 10`, `base_row = 8`, prompt height
`5`, one-line error. -/
theorem c8_print_error_behaviour_witness :
    ∃ b1 scrolls,
      Input.print_error 10 8 5 1 =
        some (b1, scrolls ++ [Op.moveTo 0 (b1 + 5), Op.writeGlyph,
          Op.renderError, Op.flushOp]) ∧
      b1 + 5 + 1 ≤ 10 ∧
      (scrolls = [] ∨ ∃ d, scrolls = [Op.scrollUp d, Op.cursorUp d]) :=
  c8_print_error_behaviour 10 8 5 (by decide) (by decide) (by decide) (by decide)

section RunnerSteps

variable {σ ε ο ι : Type}

/-- Helper: the runner panics (`unwrap` of `None`) on an exhausted event
iterator. -/
theorem run_nil (P : PromptModel σ ε ο) (s : σ) :
    Input.run P s ([] : List (Except ι KeyEvent)) = (Outcome.panicked, []) :=
  rfl

/-- Helper: a failing event pull propagates out of the runner. -/
theorem run_pull_error (P : PromptModel σ ε ο) (s : σ) (e : ι)
    (rest : List (Except ι KeyEvent)) :
    Input.run P s (Except.error e :: rest) = (Outcome.pullFailed e, []) :=
  rfl

/-- Helper: the sentinel `Null` key runs the exit sequence and returns
`Eof`. -/
theorem run_null_key (P : PromptModel σ ε ο) (s : σ) (e : KeyEvent)
    (rest : List (Except ι KeyEvent)) (h : e.code = KeyCode.Null) :
    Input.run P s (Except.ok e :: rest) =
      (Outcome.eof, [Action.gotoLastLineAct, Action.resetAct]) := by
  simp [Input.run, h]

/-- Helper: `Esc` with a declared default finishes through
`finish_default` after clearing and releasing the guard — `validate` is
never consulted. -/
theorem run_esc_default (P : PromptModel σ ε ο) (s : σ) (e : KeyEvent)
    (rest : List (Except ι KeyEvent)) (h : e.code = KeyCode.Esc)
    (hd : P.has_default s = true) :
    Input.run P s (Except.ok e :: rest) =
      (Outcome.finished (P.finish_default s), [Action.clearAct, Action.resetAct]) := by
  simp [Input.run, h, hd]

/-- Helper: `Esc` without a default falls into the generic
`prompt.handle_key` branch. -/
theorem run_esc_no_default (P : PromptModel σ ε ο) (s : σ) (e : KeyEvent)
    (rest : List (Except ι KeyEvent)) (h : e.code = KeyCode.Esc)
    (hd : P.has_default s = false) :
    Input.run P s (Except.ok e :: rest) =
      ((Input.run P (P.handle_key s e).1 rest).1,
        (if (P.handle_key s e).2 then [Action.renderAct] else []) ++
          (Input.run P (P.handle_key s e).1 rest).2) := by
  simp [Input.run, h, hd]

/-- Helper: `Enter` when `validate` fails prints the error and loops with
the post-validate prompt state, without rendering or finishing. -/
theorem run_enter_err (P : PromptModel σ ε ο) (s : σ) (e : KeyEvent)
    (rest : List (Except ι KeyEvent)) (h : e.code = KeyCode.Enter)
    (ev : ε) (herr : (P.validate s).2 = VResult.err ev) :
    Input.run P s (Except.ok e :: rest) =
      ((Input.run P (P.validate s).1 rest).1,
        Action.validateCalled :: Action.printErrorAct ::
          (Input.run P (P.validate s).1 rest).2) := by
  rcases hps : P.validate s with ⟨s', v⟩
  rw [hps] at herr
  simp only at herr
  subst herr
  simp [Input.run, h, hps]

end RunnerSteps

/-- C4: a prompt whose `validate` always returns an error never reaches the
`finished` outcome on any all-`Enter` event sequence: each `Enter` records a
`validate` call followed by an error render and loops; the run ends only by
exhausting the input (the model's `panicked`), never by finishing, and the
validation error never escapes as a runner outcome. -/
theorem c4_validation_loop {σ ε ο ι : Type} (P : PromptModel σ ε ο)
    (hval : ∀ st, ∃ e, (P.validate st).2 = VResult.err e) (s : σ)
    (events : List (Except ι KeyEvent))
    (hev : ∀ x ∈ events, ∃ e : KeyEvent, x = Except.ok e ∧ e.code = KeyCode.Enter) :
    (Input.run P s events).1 = Outcome.panicked ∧
    ∀ o, (Input.run P s events).1 ≠ Outcome.finished o := by
  revert hev
  induction events generalizing s with
  | nil =>
    intro _
    exact ⟨rfl, by intro o h; simp [Input.run] at h⟩
  | cons x rest ih =>
    intro hev
    obtain ⟨e, hx, hcode⟩ := hev x (List.mem_cons_self x rest)
    subst hx
    obtain ⟨ev, herr⟩ := hval s
    rw [run_enter_err P s e rest hcode ev herr]
    have hrest := ih (P.validate s).1 (fun y hy => hev y (List.mem_cons_of_mem _ hy))
    exact ⟨hrest.1, by intro o h; exact hrest.2 o h⟩

/-- C4 witness: the always-failing prompt on a single `Enter`. -/
theorem c4_validation_loop_witness :
    (Input.run failPrompt () [Except.ok (KeyEvent.mk KeyCode.Enter false)]).1 =
      (Outcome.panicked : Outcome Unit String) :=
  (c4_validation_loop failPrompt (fun _ => ⟨"invalid", rfl⟩) ()
    [Except.ok (KeyEvent.mk KeyCode.Enter false)]
    (by intro x hx
        simp only [List.mem_singleton] at hx
        exact ⟨KeyEvent.mk KeyCode.Enter false, hx, rfl⟩)).1

/-- C5: the claim covers both ways input can end.  For the second — the
event sequence yields no further events — the runner does **not** run the
exit sequence and return `Eof`: `events.next().unwrap()` panics on an
exhausted iterator (the model's `panicked` outcome, with an empty action
trace). -/
theorem c5_end_of_input_counterexample :
    Input.run unitPrompt () ([] : List (Except String KeyEvent)) =
      (Outcome.panicked, []) ∧
    (Outcome.panicked : Outcome Unit String) ≠ Outcome.eof := by
  constructor
  · rfl
  · intro h; cases h

/-- C5 (amended): only the sentinel `Null` ("no more input") key triggers
the end-of-input handling: the runner runs the exit sequence
(`goto_last_line`, then guard release) and returns `Eof`; an event sequence
that simply yields no further events instead makes the runner panic on
`unwrap`. -/
theorem c5_end_of_input {σ ε ο ι : Type} (P : PromptModel σ ε ο) :
    (∀ (s : σ) (rest : List (Except ι KeyEvent)) (e : KeyEvent),
      e.code = KeyCode.Null →
      Input.run P s (Except.ok e :: rest) =
        (Outcome.eof, [Action.gotoLastLineAct, Action.resetAct])) ∧
    (∀ s : σ, Input.run P s ([] : List (Except ι KeyEvent)) =
      (Outcome.panicked, [])) :=
  ⟨fun s rest e h => run_null_key P s e rest h, fun s => run_nil P s⟩

/-- C5 witness: the sentinel key at a concrete prompt and empty rest. -/
theorem c5_end_of_input_witness :
    Input.run unitPrompt () [(Except.ok (KeyEvent.mk KeyCode.Null false) : Except String KeyEvent)] =
      (Outcome.eof, [Action.gotoLastLineAct, Action.resetAct]) :=
  (@c5_end_of_input Unit String Unit String unitPrompt).1 () [] (KeyEvent.mk KeyCode.Null false) rfl

/-- C6: an `Esc` key on a prompt that declares a default finishes
immediately through the default-value path: the rendered region is cleared,
the guard is released, the value is `finish_default` (not `finish`), and
`validate` is never invoked on that path. -/
theorem c6_escape_default {σ ε ο ι : Type} (P : PromptModel σ ε ο) (s : σ)
    (rest : List (Except ι KeyEvent)) (e : KeyEvent)
    (h : e.code = KeyCode.Esc) (hd : P.has_default s = true) :
    Input.run P s (Except.ok e :: rest) =
      (Outcome.finished (P.finish_default s), [Action.clearAct, Action.resetAct]) ∧
    Action.validateCalled ∉ (Input.run P s (Except.ok e :: rest)).2 := by
  have hrun := run_esc_default P s e rest h hd
  refine ⟨hrun, ?_⟩
  rw [hrun]
  simp

/-- C6 witness: `Esc` on the concrete default-declaring prompt yields the
default-extraction value `2`, not the normal-extraction value `1`. -/
theorem c6_escape_default_witness :
    Input.run defaultPrompt () [(Except.ok (KeyEvent.mk KeyCode.Esc false) : Except String KeyEvent)] =
      (Outcome.finished 2, [Action.clearAct, Action.resetAct]) :=
  (@c6_escape_default Unit String Nat String defaultPrompt () []
    (KeyEvent.mk KeyCode.Esc false) rfl rfl).1

/-- C9: an `Esc` key on a prompt without a default is neither a finish nor
a swallowed key: it falls through to the prompt's own `handle_key` exactly
like any other non-control key, and the runner re-renders iff that handler
reports a state change. -/
theorem c9_escape_no_default {σ ε ο ι : Type} (P : PromptModel σ ε ο) (s : σ)
    (rest : List (Except ι KeyEvent)) (e : KeyEvent)
    (h : e.code = KeyCode.Esc) (hd : P.has_default s = false) :
    Input.run P s (Except.ok e :: rest) =
      ((Input.run P (P.handle_key s e).1 rest).1,
        (if (P.handle_key s e).2 then [Action.renderAct] else []) ++
          (Input.run P (P.handle_key s e).1 rest).2) :=
  run_esc_no_default P s e rest h hd

/-- C9 witness: `Esc` on the concrete no-default prompt delegates to its
(no-op) key handler and does not re-render. -/
theorem c9_escape_no_default_witness :
    Input.run unitPrompt () [(Except.ok (KeyEvent.mk KeyCode.Esc false) : Except String KeyEvent)] =
      ((Outcome.panicked, []) : Outcome Unit String × List Action) := by
  have := @c9_escape_no_default Unit String Unit String unitPrompt () []
    (KeyEvent.mk KeyCode.Esc false) rfl rfl
  simpa [unitPrompt] using this

/-- Helper: the index returned by `position` is in bounds and its element
satisfies the predicate. -/
theorem position_eq_some {α : Type} (p : α → Bool) (l : List α) (i : Nat)
    (h : position p l = some i) : ∃ a, l.get? i = some a ∧ p a = true := by
  induction l generalizing i with
  | nil => simp [position] at h
  | cons x xs ih =>
    by_cases hp : p x
    · simp [position, hp] at h
      exact ⟨x, by simp [← h], hp⟩
    · simp [position, hp] at h
      obtain ⟨j, hj, hij⟩ := h
      obtain ⟨a, ha, hpa⟩ := ih j hj
      refine ⟨a, ?_, hpa⟩
      rw [← hij]
      simpa using ha

/-- Helper: a successful `position` search over a dropped prefix lands, in
the original list, on an element accepted by the predicate; if the
predicate only accepts non-separators, that index is selectable. -/
theorem position_drop_selectable (choices : List (Choice (Nat × String)))
    (k pos : Nat) (p : Choice (Nat × String) → Bool)
    (hp : ∀ c, p c = true → c.is_separator = false)
    (h : position p (choices.drop k) = some pos) :
    selectableAt choices (k + pos) = true := by
  obtain ⟨c, hg, hpc⟩ := position_eq_some p (choices.drop k) pos h
  rw [List.get?_drop] at hg
  unfold selectableAt
  rw [hg]
  simp [hp c hpc]

/-- Helper: a forward selectable-search result is in bounds and
selectable. -/
theorem findSelectableFwd_spec (sel : Nat → Bool) (len start j : Nat)
    (h : findSelectableFwd sel len start = some j) : j < len ∧ sel j = true := by
  have hm : j ∈ (List.range len).drop start := List.mem_of_find?_eq_some h
  have hr : j ∈ List.range len := List.mem_of_mem_drop hm
  exact ⟨List.mem_range.mp hr, List.find?_some h⟩

/-- Helper: a backward selectable-search result is below `stop` and
selectable. -/
theorem findSelectableBwd_spec (sel : Nat → Bool) (stop j : Nat)
    (h : findSelectableBwd sel stop = some j) : j < stop ∧ sel j = true := by
  have hm : j ∈ (List.range stop).reverse := List.mem_of_find?_eq_some h
  rw [List.mem_reverse] at hm
  exact ⟨List.mem_range.mp hm, List.find?_some h⟩

/-- C7: the claim asserts that every typed-index update leaves
`current_index` on a selectable `i < length`.  With the single choice
numbered `1`, typing `2` runs `set_at(len + 1)`: the hover lands on index
`2`, which is neither `< 1` nor selectable. -/
theorem c7_cursor_selectable_counterexample :
    rawSelectTypedUpdate [Choice.Choice (1, "a")] (some 2) = 2 ∧
    ¬ (2 < [Choice.Choice (1, "a")].length) ∧
    selectableAt [Choice.Choice (1, "a")] 2 = false := by
  refine ⟨rfl, by decide, rfl⟩

/-- C7 (amended): the engine's navigation (spec-modelled — `select.rs` is
not in the source tree) always lands on a selectable index `< length`; the
raw-select and rawlist typed-index updates land on the matching selectable
choice when the typed number names one, and otherwise deliberately park the
hover at the out-of-range sentinel `length + 1`, which `validate` rejects. -/
theorem c7_cursor_selectable_invariant :
    (∀ (len : Nat) (sel : Nat → Bool) (loop : Bool) (cur j : Nat),
        nextSelectable len sel loop cur = some j → j < len ∧ sel j = true) ∧
    (∀ (len : Nat) (sel : Nat → Bool) (loop : Bool) (cur j : Nat),
        cur ≤ len → prevSelectable len sel loop cur = some j →
          j < len ∧ sel j = true) ∧
    (∀ (choices : List (Choice (Nat × String))) (parsed : Option Nat),
        selectableAt choices (rawSelectTypedUpdate choices parsed) = true ∨
          rawSelectTypedUpdate choices parsed = choices.length + 1) ∧
    (∀ (choices : List (Choice (Nat × String))) (parsed : Option Nat),
        selectableAt choices (rawlistTypedUpdate choices parsed) = true ∨
          rawlistTypedUpdate choices parsed = choices.length + 1) ∧
    (∀ a len : Nat, len ≤ a →
        rawSelectValidate a len = VResult.err "Please enter a valid choice") := by
  refine ⟨?_, ?_, ?_, ?_, ?_⟩
  · intro len sel loop cur j h
    unfold nextSelectable at h
    rcases hf : findSelectableFwd sel len (cur + 1) with _ | k
    · rw [hf] at h
      cases loop with
      | false => simp at h
      | true =>
        simp at h
        exact findSelectableFwd_spec sel len 0 j h
    · rw [hf] at h
      simp at h
      subst h
      exact findSelectableFwd_spec sel len (cur + 1) k hf
  · intro len sel loop cur j hcur h
    unfold prevSelectable at h
    rcases hf : findSelectableBwd sel cur with _ | k
    · rw [hf] at h
      cases loop with
      | false => simp at h
      | true =>
        simp at h
        exact findSelectableBwd_spec sel len j h
    · rw [hf] at h
      simp at h
      subst h
      have hs := findSelectableBwd_spec sel cur k hf
      exact ⟨lt_of_lt_of_le hs.1 hcur, hs.2⟩
  · intro choices parsed
    rcases parsed with _ | n
    · exact Or.inr rfl
    simp only [rawSelectTypedUpdate]
    by_cases hcond : n ≤ choices.length ∧ n > 0
    · rw [if_pos hcond]
      rcases hpos : position (fun c => match c with
          | Choice.Choice (i, _) => i == n
          | _ => false) (choices.drop (n - 1)) with _ | pos
      · rw [hpos]
        exact Or.inr rfl
      · rw [hpos]
        left
        have hsel := position_drop_selectable choices (n - 1) pos _
          (by intro c hc; cases c <;> simp_all [Choice.is_separator]) hpos
        show selectableAt choices (pos + n - 1) = true
        have harith : pos + n - 1 = n - 1 + pos := by omega
        rw [harith]
        exact hsel
    · rw [if_neg hcond]
      exact Or.inr rfl
  · intro choices parsed
    rcases parsed with _ | n
    · exact Or.inr rfl
    simp only [rawlistTypedUpdate]
    by_cases hcond : n < choices.length ∧ n > 0
    · rw [if_pos hcond]
      rcases hpos : position (fun c => match c with
          | Choice.Choice (i, _) => i == n - 1
          | _ => false) (choices.drop (n - 1)) with _ | pos
      · rw [hpos]
        exact Or.inr rfl
      · rw [hpos]
        left
        have hsel := position_drop_selectable choices (n - 1) pos _
          (by intro c hc; cases c <;> simp_all [Choice.is_separator]) hpos
        show selectableAt choices (pos + (n - 1)) = true
        have harith : pos + (n - 1) = n - 1 + pos := by omega
        rw [harith]
        exact hsel
    · rw [if_neg hcond]
      exact Or.inr rfl
  · intro a len h
    simp [rawSelectValidate, h]

/-- C7 witness: Down from index 0 in a three-item list whose middle entry
is not selectable lands on index 2, in bounds and selectable. -/
theorem c7_cursor_selectable_invariant_witness :
    2 < 3 ∧ (fun i => i != 1) 2 = true :=
  c7_cursor_selectable_invariant.1 3 (fun i => i != 1) true 0 2 rfl

/-- C10: the integer prompt's Up/Down/PageUp/PageDown keys change the
parsed value by `+1`/`-1`/`+10`/`-10` through `i64::wrapping_add` —
addition modulo `2^64` on the two's-complement representation — so Up at
`i64::MAX` yields `i64::MIN`. -/
theorem c10_int_delta_wrapping :
    (∀ n : Int, intHandleKeyValue KeyCode.Up (some n) = some (wrap64 (n + 1))) ∧
    (∀ n : Int, intHandleKeyValue KeyCode.Down (some n) = some (wrap64 (n - 1))) ∧
    (∀ n : Int, intHandleKeyValue KeyCode.PageUp (some n) = some (wrap64 (n + 10))) ∧
    (∀ n : Int, intHandleKeyValue KeyCode.PageDown (some n) = some (wrap64 (n - 10))) ∧
    intHandleKeyValue KeyCode.Up (some (2 ^ 63 - 1)) = some (-(2 ^ 63)) := by
  refine ⟨fun n => rfl, fun n => ?_, fun n => rfl, fun n => ?_, ?_⟩
  · simp [intHandleKeyValue, intDelta, wrappingAdd64, sub_eq_add_neg]
  · simp [intHandleKeyValue, intDelta, wrappingAdd64, sub_eq_add_neg]
  · norm_num [intHandleKeyValue, intDelta, wrappingAdd64, wrap64]
